import Mathlib

/-!
# Verification of the robot-motion simulation kernel

Shallow embedding of the simulation kernel of `src/frontend/store/robotStore.ts`:
collision detection (`checkCollision`), ray-cast range sensing
(`calculateDistance`), the motion integrator (`moveRobot`), the command-queue
executor (`executeCommands`), and the surrounding store operations
(`resetRobot`, `loadProgram`) over the fixed `ENVIRONMENTS` catalog.
Coordinates and headings are modelled as real numbers; the JavaScript `%`
operator on numbers (remainder with truncation toward zero) is modelled by
`jsMod`.
-/

namespace RobotSim

/-- An axis-aligned rectangular obstacle, as in the `Obstacle` type of the
source: `{x, y, width, height}`. -/
structure Obstacle where
  x : ℝ
  y : ℝ
  width : ℝ
  height : ℝ

/-- A named obstacle layout, as in the `Environment` type of the source. -/
structure Environment where
  name : String
  obstacles : List Obstacle

/-- The five recognized command actions of the `Command` type. -/
inductive Action where
  | forward
  | backward
  | left
  | right
  | stop
deriving DecidableEq

/-- A queued command: `{id, action, distance?}` from the source. -/
structure Command where
  id : String
  action : Action
  distance : Option ℝ := none

/-- The robot pose, named `Position` in the source: `{x, y, angle}`. -/
structure Position where
  x : ℝ
  y : ℝ
  angle : ℝ

/-- The scan loop of `checkCollision`: walk the obstacle list in order and
return `true` at the first obstacle whose inclusive bounds contain the point
(`newX >= obstacle.x && newX <= obstacle.x + obstacle.width && newY >=
obstacle.y && newY <= obstacle.y + obstacle.height`), `false` if the list is
exhausted. -/
noncomputable def checkCollisionList : List Obstacle → ℝ → ℝ → Bool
  | [], _, _ => false
  | obstacle :: rest, newX, newY =>
      if newX ≥ obstacle.x ∧ newX ≤ obstacle.x + obstacle.width ∧
          newY ≥ obstacle.y ∧ newY ≤ obstacle.y + obstacle.height then
        true
      else
        checkCollisionList rest newX newY

/-- `checkCollision(newX, newY)` from the source, scanning
`currentEnvironment.obstacles`. -/
noncomputable def checkCollision (env : Environment) (newX newY : ℝ) : Bool :=
  checkCollisionList env.obstacles newX newY

/-- JavaScript's `%` on numbers needs the quotient rounded toward zero; this
is that truncation. -/
noncomputable def jsTrunc (x : ℝ) : ℤ :=
  if 0 ≤ x then ⌊x⌋ else ⌈x⌉

/-- The value of `a % n` in JavaScript for `n ≠ 0`: the remainder
`a - n * trunc (a / n)`, carrying the sign of the dividend. -/
noncomputable def jsMod (a n : ℝ) : ℝ :=
  a - n * jsTrunc (a / n)

/-- `moveRobot(action)` from the source: one step of the motion integrator
against the active environment, with `moveDistance = 5` and turn step `15`.
The `forward`/`backward` cases compute the candidate translation along the
heading and keep the previous pose when `checkCollision` reports a hit
(`if (!checkCollision(newX, newY))`); the `left`/`right` cases update the
angle with JavaScript `%`; `stop` matches no case of the source `switch` and
leaves the pose untouched. -/
noncomputable def moveRobot (env : Environment) (prev : Position) : Action → Position
  | .forward =>
      let newX := prev.x + Real.cos (prev.angle * Real.pi / 180) * 5
      let newY := prev.y + Real.sin (prev.angle * Real.pi / 180) * 5
      if checkCollision env newX newY then prev else { prev with x := newX, y := newY }
  | .backward =>
      let backX := prev.x - Real.cos (prev.angle * Real.pi / 180) * 5
      let backY := prev.y - Real.sin (prev.angle * Real.pi / 180) * 5
      if checkCollision env backX backY then prev else { prev with x := backX, y := backY }
  | .left => { prev with angle := jsMod (prev.angle - 15 + 360) 360 }
  | .right => { prev with angle := jsMod (prev.angle + 15) 360 }
  | .stop => prev

/-- The body of the `while (distance < maxDistance)` loop of
`calculateDistance`, with `step = 5` and `maxDistance = 200` as in the source.
The `fuel` argument bounds the number of remaining guard tests; since
`distance` starts at `0` and grows by `5` toward the guard bound `200`, the
guard is tested at most 41 times, so the loop with fuel `41` computes exactly
what the source's unbounded loop computes.  On exit the source returns
`Math.min(distance, maxDistance)`. -/
noncomputable def calculateDistanceLoop (env : Environment) (angle : ℝ) :
    ℕ → ℝ → ℝ → ℝ → ℝ
  | 0, _, _, distance => min distance 200
  | fuel + 1, testX, testY, distance =>
      if distance < 200 then
        let newTestX := testX + Real.cos (angle * Real.pi / 180) * 5
        let newTestY := testY + Real.sin (angle * Real.pi / 180) * 5
        if checkCollision env newTestX newTestY then min distance 200
        else calculateDistanceLoop env angle fuel newTestX newTestY (distance + 5)
      else min distance 200

/-- `calculateDistance(x, y, angle)` from the source: a fixed-step ray march
from `(x, y)` along heading `angle`. -/
noncomputable def calculateDistance (env : Environment) (x y angle : ℝ) : ℝ :=
  calculateDistanceLoop env angle 41 x y 0

/-- The mutable store owned by the component: the robot `position`, the
command queue `commands`, the `isExecuting` flag and the active
`currentEnvironment`. -/
structure SimState where
  position : Position
  commands : List Command
  isExecuting : Bool
  currentEnvironment : Environment

/-- The `for (const command of commands)` loop of `executeCommands`: apply
`moveRobot` to every queued command in order.  The source forwards each
command's action to `moveRobot` unconditionally; no action short-circuits the
loop. -/
noncomputable def runCommands (env : Environment) : Position → List Command → Position
  | p, [] => p
  | p, command :: rest => runCommands env (moveRobot env p command.action) rest

/-- `executeCommands()` from the source: returns immediately when the queue is
empty or an execution is already in flight (`commands.length === 0 ||
isExecuting`); otherwise sets `isExecuting`, drains the whole queue through
`moveRobot`, and clears `isExecuting` at the end. -/
noncomputable def executeCommands (s : SimState) : SimState :=
  if s.commands.length = 0 ∨ s.isExecuting = true then s
  else
    { s with
      position := runCommands s.currentEnvironment s.position s.commands,
      isExecuting := false }

/-- `CANVAS_HEIGHT` from the source. -/
def CANVAS_HEIGHT : ℝ := 400

/-- `resetRobot()` from the source, parametrized by the runtime-computed
`CANVAS_WIDTH` (written `cw`): puts the robot back at the canvas center with
angle `0` and clears `isExecuting`; the command queue is not touched. -/
noncomputable def resetRobot (cw : ℝ) (s : SimState) : SimState :=
  { s with
    position := { x := cw / 2, y := CANVAS_HEIGHT / 2, angle := 0 },
    isExecuting := false }

/-- The `ENVIRONMENTS` catalog from the source, parametrized by the
runtime-computed `CANVAS_WIDTH` (written `cw`). -/
noncomputable def ENVIRONMENTS (cw : ℝ) : List Environment :=
  [ { name := "Open Space",
      obstacles :=
        [ { x := 0, y := 0, width := cw, height := 5 },
          { x := 0, y := CANVAS_HEIGHT - 5, width := cw, height := 5 },
          { x := 0, y := 0, width := 5, height := CANVAS_HEIGHT },
          { x := cw - 5, y := 0, width := 5, height := CANVAS_HEIGHT } ] },
    { name := "Simple Maze",
      obstacles :=
        [ { x := 0, y := 0, width := cw, height := 5 },
          { x := 0, y := CANVAS_HEIGHT - 5, width := cw, height := 5 },
          { x := 0, y := 0, width := 5, height := CANVAS_HEIGHT },
          { x := cw - 5, y := 0, width := 5, height := CANVAS_HEIGHT },
          { x := 100, y := 100, width := 150, height := 20 },
          { x := 250, y := 200, width := 20, height := 150 } ] },
    { name := "Obstacle Course",
      obstacles :=
        [ { x := 0, y := 0, width := cw, height := 5 },
          { x := 0, y := CANVAS_HEIGHT - 5, width := cw, height := 5 },
          { x := 0, y := 0, width := 5, height := CANVAS_HEIGHT },
          { x := cw - 5, y := 0, width := 5, height := CANVAS_HEIGHT },
          { x := 80, y := 80, width := 40, height := 40 },
          { x := 200, y := 150, width := 60, height := 30 },
          { x := 150, y := 280, width := 50, height := 50 } ] } ]

/-- The shape of a persisted program as consumed by `loadProgram`. -/
structure SavedProgram where
  name : String
  commands : List Command
  environment : String

/-- `loadProgram(program)` from the source: install the program's commands,
switch to the catalog environment matching `program.environment` when the
lookup succeeds (`if (env) setCurrentEnvironment(env)`), keep the current
environment otherwise, then `resetRobot()`. -/
noncomputable def loadProgram (cw : ℝ) (s : SimState) (program : SavedProgram) : SimState :=
  let s1 : SimState := { s with commands := program.commands }
  let s2 : SimState :=
    match (ENVIRONMENTS cw).find? (fun e => e.name == program.environment) with
    | some env => { s1 with currentEnvironment := env }
    | none => s1
  resetRobot cw s2

/-- Concrete fixture: an environment with a single 10x10 obstacle at the
origin, used to exercise blocked moves. -/
noncomputable def boxEnv : Environment :=
  { name := "Box", obstacles := [{ x := 0, y := 0, width := 10, height := 10 }] }

/-- Concrete fixture: an environment with no obstacles. -/
noncomputable def emptyEnv : Environment :=
  { name := "Empty", obstacles := [] }

/-- Concrete fixture: a store state whose executor is already running. -/
noncomputable def busyState : SimState :=
  { position := { x := 1, y := 2, angle := 3 },
    commands := [{ id := "c1", action := Action.forward }],
    isExecuting := true,
    currentEnvironment := emptyEnv }

/-- Concrete fixture: the queue `[forward, forward, left, stop, right]` from
the spec's executor scenario. -/
noncomputable def demoQueue : List Command :=
  [ { id := "1", action := Action.forward },
    { id := "2", action := Action.forward },
    { id := "3", action := Action.left },
    { id := "4", action := Action.stop },
    { id := "5", action := Action.right } ]

/-- Membership characterization of the collision scan loop. -/
theorem checkCollisionList_iff (l : List Obstacle) (px py : ℝ) :
    checkCollisionList l px py = true ↔
      ∃ o ∈ l, o.x ≤ px ∧ px ≤ o.x + o.width ∧ o.y ≤ py ∧ py ≤ o.y + o.height := by
  induction l with
  | nil => simp [checkCollisionList]
  | cons o rest ih =>
      by_cases h : px ≥ o.x ∧ px ≤ o.x + o.width ∧ py ≥ o.y ∧ py ≤ o.y + o.height
      · simp only [checkCollisionList, if_pos h, List.mem_cons]
        constructor
        · intro _
          exact ⟨o, Or.inl rfl, h.1, h.2.1, h.2.2.1, h.2.2.2⟩
        · intro _
          trivial
      · simp only [checkCollisionList, if_neg h, ih, List.mem_cons]
        constructor
        · rintro ⟨o', ho', hb⟩
          exact ⟨o', Or.inr ho', hb⟩
        · rintro ⟨o', ho' | ho', hb⟩
          · subst ho'
            exact absurd ⟨hb.1, hb.2.1, hb.2.2.1, hb.2.2.2⟩ h
          · exact ⟨o', ho', hb⟩

/-- `jsMod a n` differs from `a` by an integer multiple of `n`. -/
theorem jsMod_sub_eq_int_mul (a n : ℝ) : ∃ k : ℤ, jsMod a n = a - n * k :=
  ⟨jsTrunc (a / n), rfl⟩

/-- For a nonnegative dividend, `a % 360` lies in `[0, 360)`. -/
theorem jsMod_nonneg_lt (a : ℝ) (ha : 0 ≤ a) : 0 ≤ jsMod a 360 ∧ jsMod a 360 < 360 := by
  have hfr : jsMod a 360 = 360 * Int.fract (a / 360) := by
    rw [jsMod, jsTrunc, if_pos (by positivity), Int.fract]
    ring
  have h0 := Int.fract_nonneg (a / 360)
  have h1 := Int.fract_lt_one (a / 360)
  constructor
  · rw [hfr]; positivity
  · rw [hfr]; linarith

/-- Evaluation of `jsMod a 360` when `a` already lies in `[0, 360)`. -/
theorem jsMod_eq_self (a : ℝ) (h0 : 0 ≤ a) (h1 : a < 360) : jsMod a 360 = a := by
  have : ⌊a / 360⌋ = 0 := by
    rw [Int.floor_eq_zero_iff]
    constructor
    · positivity
    · rw [div_lt_one (by norm_num)]; linarith
  rw [jsMod, jsTrunc, if_pos (by positivity), this]
  push_cast
  ring

/-- Evaluation of `jsMod a 360` when `a` lies in `[360, 720)`. -/
theorem jsMod_eq_sub (a : ℝ) (h0 : 360 ≤ a) (h1 : a < 720) : jsMod a 360 = a - 360 := by
  have : ⌊a / 360⌋ = 1 := by
    rw [Int.floor_eq_iff]
    constructor
    · push_cast
      rw [le_div_iff₀ (by norm_num : (0:ℝ) < 360)]
      linarith
    · push_cast
      rw [div_lt_iff₀ (by norm_num : (0:ℝ) < 360)]
      linarith
  rw [jsMod, jsTrunc, if_pos (by positivity), this]
  push_cast
  ring

/-- Claim C3: `checkCollision` returns `true` if and only if the point falls
within the inclusive bounds of at least one obstacle of the environment, and
the result is independent of the scan order of the obstacle list (any
permutation of the list yields the same answer). -/
theorem checkCollision_mem_spec (env : Environment) (px py : ℝ) :
    (checkCollision env px py = true ↔
      ∃ o ∈ env.obstacles,
        o.x ≤ px ∧ px ≤ o.x + o.width ∧ o.y ≤ py ∧ py ≤ o.y + o.height) ∧
    (∀ l : List Obstacle, env.obstacles.Perm l →
      checkCollision env px py = checkCollisionList l px py) := by
  constructor
  · exact checkCollisionList_iff env.obstacles px py
  · intro l hperm
    rw [Bool.eq_iff_iff, checkCollision, checkCollisionList_iff, checkCollisionList_iff]
    constructor
    · rintro ⟨o, ho, hb⟩
      exact ⟨o, hperm.mem_iff.mp ho, hb⟩
    · rintro ⟨o, ho, hb⟩
      exact ⟨o, hperm.mem_iff.mpr ho, hb⟩

/-- Witness for C3: the boundary point `(10, 10)` of the box obstacle is
reported blocked, via the membership characterization. -/
theorem checkCollision_mem_spec_witness : checkCollision boxEnv 10 10 = true :=
  (checkCollision_mem_spec boxEnv 10 10).1.mpr
    ⟨{ x := 0, y := 0, width := 10, height := 10 }, by simp [boxEnv], by norm_num⟩

/-- Claim C2: a `forward` command whose candidate position (the pose
translated by the move step along the current heading) is blocked leaves the
pose exactly unchanged, and likewise a `backward` command whose candidate
position along the reversed heading vector is blocked. -/
theorem moveRobot_blocked_id (env : Environment) (p : Position) :
    (checkCollision env (p.x + Real.cos (p.angle * Real.pi / 180) * 5)
        (p.y + Real.sin (p.angle * Real.pi / 180) * 5) = true →
      moveRobot env p Action.forward = p) ∧
    (checkCollision env (p.x - Real.cos (p.angle * Real.pi / 180) * 5)
        (p.y - Real.sin (p.angle * Real.pi / 180) * 5) = true →
      moveRobot env p Action.backward = p) := by
  constructor
  · intro h
    simp [moveRobot, h]
  · intro h
    simp [moveRobot, h]

/-- Witness for C2: in the box environment a forward step from `(3, 3)` at
angle `0` lands inside the obstacle, so the pose stays `(3, 3, 0)`. -/
theorem moveRobot_blocked_id_witness :
    moveRobot boxEnv { x := 3, y := 3, angle := 0 } Action.forward =
      { x := 3, y := 3, angle := 0 } :=
  (moveRobot_blocked_id boxEnv { x := 3, y := 3, angle := 0 }).1 (by
    norm_num [checkCollision, checkCollisionList, boxEnv])

/-- Claim C5: turning `left` and then `right` leaves `x` and `y` unchanged at
both steps and returns the heading to its original value modulo 360: the
final angle differs from the initial one by an integer multiple of 360. -/
theorem left_right_heading (env : Environment) (p : Position) :
    (moveRobot env p Action.left).x = p.x ∧
    (moveRobot env p Action.left).y = p.y ∧
    (moveRobot env (moveRobot env p Action.left) Action.right).x = p.x ∧
    (moveRobot env (moveRobot env p Action.left) Action.right).y = p.y ∧
    ∃ k : ℤ,
      (moveRobot env (moveRobot env p Action.left) Action.right).angle =
        p.angle + 360 * k := by
  refine ⟨rfl, rfl, rfl, rfl, ?_⟩
  obtain ⟨k₁, h₁⟩ := jsMod_sub_eq_int_mul (p.angle - 15 + 360) 360
  obtain ⟨k₂, h₂⟩ := jsMod_sub_eq_int_mul (jsMod (p.angle - 15 + 360) 360 + 15) 360
  refine ⟨1 - k₁ - k₂, ?_⟩
  show jsMod (jsMod (p.angle - 15 + 360) 360 + 15) 360 =
    p.angle + 360 * ((1 - k₁ - k₂ : ℤ) : ℝ)
  rw [h₂, h₁]
  push_cast
  ring

/-- Claim C9: the heading stays normalized: for every action, a pose whose
angle lies in `[0, 360)` is mapped by the motion integrator to a pose whose
angle again lies in `[0, 360)`. -/
theorem moveRobot_angle_range (env : Environment) (p : Position) (a : Action)
    (h0 : 0 ≤ p.angle) (h1 : p.angle < 360) :
    0 ≤ (moveRobot env p a).angle ∧ (moveRobot env p a).angle < 360 := by
  cases a with
  | forward =>
      simp only [moveRobot]
      split_ifs
      · exact ⟨h0, h1⟩
      · exact ⟨h0, h1⟩
  | backward =>
      simp only [moveRobot]
      split_ifs
      · exact ⟨h0, h1⟩
      · exact ⟨h0, h1⟩
  | left =>
      simp only [moveRobot]
      exact jsMod_nonneg_lt _ (by linarith)
  | right =>
      simp only [moveRobot]
      exact jsMod_nonneg_lt _ (by linarith)
  | stop => exact ⟨h0, h1⟩

/-- Witness for C9: a left turn from angle `0` yields an angle in
`[0, 360)`. -/
theorem moveRobot_angle_range_witness :
    0 ≤ (moveRobot emptyEnv { x := 0, y := 0, angle := 0 } Action.left).angle ∧
      (moveRobot emptyEnv { x := 0, y := 0, angle := 0 } Action.left).angle < 360 :=
  moveRobot_angle_range emptyEnv { x := 0, y := 0, angle := 0 } Action.left
    (le_refl 0) (by norm_num : (0:ℝ) < 360)

/-- Claim C10: non-collision is preserved by every motion command: if the
current position is not blocked, the position after any of the five actions
is not blocked either. -/
theorem moveRobot_preserves_free (env : Environment) (p : Position) (a : Action)
    (h : checkCollision env p.x p.y = false) :
    checkCollision env (moveRobot env p a).x (moveRobot env p a).y = false := by
  cases a with
  | forward =>
      simp only [moveRobot]
      split_ifs with hc
      · exact h
      · simpa using hc
  | backward =>
      simp only [moveRobot]
      split_ifs with hc
      · exact h
      · simpa using hc
  | left => exact h
  | right => exact h
  | stop => exact h

/-- Witness for C10: in the empty environment the position `(1, 2)` is free,
and it stays free across a forward step. -/
theorem moveRobot_preserves_free_witness :
    checkCollision emptyEnv
        (moveRobot emptyEnv { x := 1, y := 2, angle := 3 } Action.forward).x
        (moveRobot emptyEnv { x := 1, y := 2, angle := 3 } Action.forward).y = false :=
  moveRobot_preserves_free emptyEnv { x := 1, y := 2, angle := 3 } Action.forward rfl

/-- Claim C6: calling `executeCommands` while an execution is already in
flight, or while the command queue is empty, is a no-op: the whole store state
(pose, queue, executor flag, environment) is returned unchanged. -/
theorem executeCommands_noop (s : SimState)
    (h : s.commands.length = 0 ∨ s.isExecuting = true) :
    executeCommands s = s := by
  rw [executeCommands, if_pos h]

/-- Witness for C6: on a state whose executor is already running,
`executeCommands` returns the state unchanged. -/
theorem executeCommands_noop_witness : executeCommands busyState = busyState :=
  executeCommands_noop busyState (Or.inr rfl)

/-- Claim C7: `resetRobot` puts the pose at the canvas center (which is
`(CANVAS_WIDTH / 2, 200)`) with heading `0`, clears the executing flag, and
leaves both the command queue and the active environment untouched. -/
theorem resetRobot_spec (cw : ℝ) (s : SimState) :
    (resetRobot cw s).position = { x := cw / 2, y := CANVAS_HEIGHT / 2, angle := 0 } ∧
    CANVAS_HEIGHT / 2 = 200 ∧
    (resetRobot cw s).isExecuting = false ∧
    (resetRobot cw s).commands = s.commands ∧
    (resetRobot cw s).currentEnvironment = s.currentEnvironment :=
  ⟨rfl, by norm_num [CANVAS_HEIGHT], rfl, rfl, rfl⟩

/-- Claim C8: loading a program whose environment name is absent from the
catalog makes the lookup fail (`find?` returns `none`) and leaves the
previously active environment unchanged. -/
theorem loadProgram_unknown_env (cw : ℝ) (s : SimState) (program : SavedProgram)
    (h : ∀ e ∈ ENVIRONMENTS cw, e.name ≠ program.environment) :
    (ENVIRONMENTS cw).find? (fun e => e.name == program.environment) = none ∧
    (loadProgram cw s program).currentEnvironment = s.currentEnvironment := by
  have hnone : (ENVIRONMENTS cw).find? (fun e => e.name == program.environment) = none := by
    rw [List.find?_eq_none]
    intro e he
    simpa using h e he
  refine ⟨hnone, ?_⟩
  rw [loadProgram]
  simp only [hnone]
  rfl

/-- Witness for C8: loading a program named for the non-catalog environment
`"nonexistent"` with `CANVAS_WIDTH = 300` keeps the current environment. -/
theorem loadProgram_unknown_env_witness :
    (ENVIRONMENTS 300).find? (fun e => e.name == "nonexistent") = none ∧
    (loadProgram 300 busyState
        { name := "p", commands := [], environment := "nonexistent" }).currentEnvironment =
      busyState.currentEnvironment :=
  loadProgram_unknown_env 300 busyState
    { name := "p", commands := [], environment := "nonexistent" } (by
      intro e he
      simp only [ENVIRONMENTS, List.mem_cons, List.not_mem_nil, or_false] at he
      rcases he with rfl | rfl | rfl <;> decide)

/-- The ray-march loop keeps its accumulated distance within `[0, 200]`. -/
theorem calculateDistanceLoop_bounds (env : Environment) (angle : ℝ) :
    ∀ (fuel : ℕ) (tx ty d : ℝ), 0 ≤ d →
      0 ≤ calculateDistanceLoop env angle fuel tx ty d ∧
        calculateDistanceLoop env angle fuel tx ty d ≤ 200 := by
  intro fuel
  induction fuel with
  | zero =>
      intro tx ty d hd
      exact ⟨le_min hd (by norm_num), min_le_right _ _⟩
  | succ n ih =>
      intro tx ty d hd
      simp only [calculateDistanceLoop]
      split_ifs
      · exact ⟨le_min hd (by norm_num), min_le_right _ _⟩
      · exact ih _ _ _ (by linarith)
      · exact ⟨le_min hd (by norm_num), min_le_right _ _⟩

/-- When no probe point along the ray is blocked, the ray-march loop runs to
the range cap.  The index `j` counts the probes already taken, so the loop is
entered at distance `5 * j` with `41 - j` guard tests remaining. -/
theorem calculateDistanceLoop_no_hit (env : Environment) (angle x y : ℝ)
    (hfree : ∀ k : ℕ, 1 ≤ k → k ≤ 40 →
      checkCollision env (x + Real.cos (angle * Real.pi / 180) * 5 * k)
        (y + Real.sin (angle * Real.pi / 180) * 5 * k) = false) :
    ∀ (fuel j : ℕ), fuel + j = 41 →
      calculateDistanceLoop env angle fuel
        (x + Real.cos (angle * Real.pi / 180) * 5 * j)
        (y + Real.sin (angle * Real.pi / 180) * 5 * j) (5 * j) = 200 := by
  intro fuel
  induction fuel with
  | zero =>
      intro j hj
      have hj41 : j = 41 := by omega
      subst hj41
      simp only [calculateDistanceLoop]
      norm_num
  | succ n ih =>
      intro j hj
      simp only [calculateDistanceLoop]
      by_cases hd : (5 * (j : ℝ)) < 200
      · rw [if_pos hd]
        have hjlt : j < 40 := by
          by_contra hc
          push_neg at hc
          have : (40 : ℝ) ≤ (j : ℝ) := by exact_mod_cast hc
          linarith
        have e1 : x + Real.cos (angle * Real.pi / 180) * 5 * (j : ℝ) +
            Real.cos (angle * Real.pi / 180) * 5 =
            x + Real.cos (angle * Real.pi / 180) * 5 * ((j : ℝ) + 1) := by
          ring
        have e2 : y + Real.sin (angle * Real.pi / 180) * 5 * (j : ℝ) +
            Real.sin (angle * Real.pi / 180) * 5 =
            y + Real.sin (angle * Real.pi / 180) * 5 * ((j : ℝ) + 1) := by
          ring
        rw [e1, e2]
        have hcol := hfree (j + 1) (by omega) (by omega)
        push_cast at hcol
        rw [hcol]
        have e3 : (5 : ℝ) * (j : ℝ) + 5 = 5 * ((j : ℝ) + 1) := by ring
        simp only [Bool.false_eq_true, if_false]
        rw [e3]
        have hih := ih (j + 1) (by omega)
        push_cast at hih
        exact hih
      · rw [if_neg hd]
        have hj40 : j ≤ 40 := by omega
        have hjr : (j : ℝ) ≤ 40 := by exact_mod_cast hj40
        have h200 : (5 : ℝ) * (j : ℝ) = 200 := by
          have h1 : (200 : ℝ) ≤ 5 * (j : ℝ) := not_lt.mp hd
          linarith
        rw [h200]
        norm_num

/-- Claim C4: the ray-cast distance always lies in `[0, 200]`, and equals
exactly `200` whenever none of the probe points along the ray within range
(the points advanced by `5` units up to `40` times) is blocked. -/
theorem calculateDistance_range (env : Environment) (x y angle : ℝ) :
    (0 ≤ calculateDistance env x y angle ∧ calculateDistance env x y angle ≤ 200) ∧
    ((∀ k : ℕ, 1 ≤ k → k ≤ 40 →
        checkCollision env (x + Real.cos (angle * Real.pi / 180) * 5 * k)
          (y + Real.sin (angle * Real.pi / 180) * 5 * k) = false) →
      calculateDistance env x y angle = 200) := by
  constructor
  · exact calculateDistanceLoop_bounds env angle 41 x y 0 le_rfl
  · intro hfree
    have h := calculateDistanceLoop_no_hit env angle x y hfree 41 0 rfl
    show calculateDistanceLoop env angle 41 x y 0 = 200
    simpa using h

/-- Witness for C4: in the empty environment the sensor from the origin at
angle `0` reads within `[0, 200]` and exactly `200`. -/
theorem calculateDistance_range_witness :
    (0 ≤ calculateDistance emptyEnv 0 0 0 ∧ calculateDistance emptyEnv 0 0 0 ≤ 200) ∧
    calculateDistance emptyEnv 0 0 0 = 200 :=
  ⟨(calculateDistance_range emptyEnv 0 0 0).1,
   (calculateDistance_range emptyEnv 0 0 0).2 (fun _ _ _ => rfl)⟩

/-- Counterexample to claim C1 as stated: executing the queue
`[forward, forward, left, stop, right]` from `(200, 200, 0)` in the empty
environment does not stop after the first three actions — the trailing
`right` is applied, so the final pose `(210, 200, 0)` differs from the pose
`(210, 200, 345)` reached by the first three actions alone. -/
theorem executeQueue_counterexample :
    runCommands emptyEnv { x := 200, y := 200, angle := 0 } demoQueue ≠
      runCommands emptyEnv { x := 200, y := 200, angle := 0 } (demoQueue.take 3) := by
  have hcc : ∀ a b : ℝ, checkCollision emptyEnv a b = false := fun a b => rfl
  have h1 : moveRobot emptyEnv { x := 200, y := 200, angle := 0 } Action.forward =
      { x := 205, y := 200, angle := 0 } := by
    simp only [moveRobot, hcc, Bool.false_eq_true, if_false]
    norm_num [Real.cos_zero, Real.sin_zero]
  have h2 : moveRobot emptyEnv { x := 205, y := 200, angle := 0 } Action.forward =
      { x := 210, y := 200, angle := 0 } := by
    simp only [moveRobot, hcc, Bool.false_eq_true, if_false]
    norm_num [Real.cos_zero, Real.sin_zero]
  have h3 : moveRobot emptyEnv { x := 210, y := 200, angle := 0 } Action.left =
      { x := 210, y := 200, angle := 345 } := by
    simp only [moveRobot]
    rw [show (Position.mk 210 200 0).angle - 15 + 360 = (345:ℝ) by norm_num]
    rw [jsMod_eq_self 345 (by norm_num) (by norm_num)]
  have h4 : moveRobot emptyEnv { x := 210, y := 200, angle := 345 } Action.stop =
      { x := 210, y := 200, angle := 345 } := rfl
  have h5 : moveRobot emptyEnv { x := 210, y := 200, angle := 345 } Action.right =
      { x := 210, y := 200, angle := 0 } := by
    simp only [moveRobot]
    rw [show (Position.mk 210 200 345).angle + 15 = (360:ℝ) by norm_num]
    rw [jsMod_eq_sub 360 (by norm_num) (by norm_num)]
    norm_num
  have hfull : runCommands emptyEnv { x := 200, y := 200, angle := 0 } demoQueue =
      { x := 210, y := 200, angle := 0 } := by
    simp only [demoQueue, runCommands]
    rw [h1, h2, h3, h4, h5]
  have htake : runCommands emptyEnv { x := 200, y := 200, angle := 0 } (demoQueue.take 3) =
      { x := 210, y := 200, angle := 345 } := by
    simp only [demoQueue, List.take_succ_cons, List.take_zero, runCommands]
    rw [h1, h2, h3]
  rw [hfull, htake]
  intro heq
  have := congrArg Position.angle heq
  norm_num at this

/-- Claim C1 (amended): the executor does not treat `stop` specially: every
queue entry is forwarded to the integrator in order, `stop` itself leaves the
pose unchanged, and processing continues past it — so for the queue
`[forward, forward, left, stop, right]` the trailing `right` is applied on
top of the pose reached by the first three actions. -/
theorem runCommands_stop_no_halt (env : Environment) (p : Position) :
    runCommands env p demoQueue =
      moveRobot env (runCommands env p (demoQueue.take 4)) Action.right ∧
    runCommands env p (demoQueue.take 4) = runCommands env p (demoQueue.take 3) :=
  ⟨rfl, rfl⟩

end RobotSim
